import Mathlib

/-!
Shallow embedding of the FSFS storage engine core (`libsvn_fs_fs/fs_fs.c`):
the commit pipeline, changed-path folding, delta-base selection, rep-sharing
lookup, root-node-revision validation and hotcopy preconditions, together
with theorems settling the specification claims about them.
-/

namespace FsFs

/-- Error kinds surfaced by the engine (`SVN_ERR_FS_TXN_OUT_OF_DATE`,
`SVN_ERR_FS_CORRUPT`, `SVN_ERR_RA_UUID_MISMATCH`,
`SVN_ERR_UNSUPPORTED_FEATURE`, ...).  `malfunction c` stands for any error
code lying in `SVN_ERR_MALFUNC_CATEGORY_START`'s category; `other c` for any
further error code outside that category. -/
inductive FsErr where
  | txnOutOfDate
  | corrupt
  | uuidMismatch
  | unsupportedFeature
  | noSuchRevision
  | lockViolation
  | assertionFail
  | malfunction (code : Nat)
  | other (code : Nat)
deriving DecidableEq, Repr

/-- A transaction as seen by `commit_body`: its id and the revision it is
based on (`cb->txn->base_rev`). -/
structure Txn where
  id : Nat
  base_rev : Int
deriving DecidableEq, Repr

/-- The filesystem state mutated by `commit_body`: the `current` pointer
(youngest committed revision) and the set of live transaction scratch
directories (by txn id). -/
structure FsState where
  current : Int
  txns : List Nat
deriving DecidableEq, Repr

/-- Embeds `commit_body` (fs_fs.c:3769-3944), run under the global write
lock.  `locks_ok` abstracts `verify_locks`; `write_result` abstracts the
outcome of steps 3-12 (writing final node-revisions, changed paths, trailer,
moving files into place): `some e` means one of those steps failed with `e`.
Every failure path returns before `write_final_current` runs and before
`svn_fs_fs__purge_txn` is called, so the state is returned unchanged; on
success the `current` file is bumped to `old_rev + 1`, the transaction is
purged, and the new revision number is handed to the caller. -/
def commit_body (s : FsState) (txn : Txn) (locks_ok : Bool)
    (write_result : Option FsErr) : FsState × Except FsErr Int :=
  let old_rev := s.current
  if txn.base_rev ≠ old_rev then
    (s, Except.error FsErr.txnOutOfDate)
  else if ¬ locks_ok then
    (s, Except.error FsErr.lockViolation)
  else
    match write_result with
    | some e => (s, Except.error e)
    | none =>
        let new_rev := old_rev + 1
        ({ current := new_rev, txns := s.txns.filter (fun t => t ≠ txn.id) },
         Except.ok new_rev)

/-- Embeds `validate_root_noderev` (fs_fs.c:3288-3341).  `root_pred` is the
candidate root node-revision's predecessor count, `head_pred` the HEAD
root's, `rev` the revision being committed.  The function asserts `rev > 0`,
computes `head_revnum = rev - 1`, and rejects as corrupt any known
(`≠ -1`) predecessor count whose difference from HEAD's does not equal
`rev - head_revnum`. -/
def validate_root_noderev (root_pred : Int) (head_pred : Int) (rev : Int) :
    Except FsErr Unit :=
  if rev ≤ 0 then Except.error FsErr.assertionFail
  else if root_pred ≠ -1 ∧ root_pred - head_pred ≠ rev - (rev - 1) then
    Except.error FsErr.corrupt
  else Except.ok ()

/-- Path-change kinds (`svn_fs_path_change_kind_t`). -/
inductive ChangeKind where
  | modify
  | add
  | delete
  | replace
  | reset
deriving DecidableEq, Repr

/-- Node kinds (`svn_node_kind_t`) as recorded on a change. -/
inductive NodeKind where
  | none
  | file
  | dir
  | unknown
deriving DecidableEq, Repr

/-- An internal changed-path record (`change_t`) as read back from a
transaction's changes file.  `noderev_id = none` stands for a NULL
node-revision id; `copyfrom_rev = none` stands for `SVN_INVALID_REVNUM`. -/
structure Change where
  path : String
  noderev_id : Option Nat
  kind : ChangeKind
  text_mod : Bool
  prop_mod : Bool
  node_kind : NodeKind
  copyfrom_rev : Option Int
  copyfrom_path : Option String
deriving DecidableEq, Repr

/-- A folded public change (`svn_fs_path_change2_t`). -/
structure PathChange where
  node_rev_id : Option Nat
  change_kind : ChangeKind
  text_mod : Bool
  prop_mod : Bool
  node_kind : NodeKind
  copyfrom_known : Bool
  copyfrom_rev : Option Int
  copyfrom_path : Option String
deriving DecidableEq, Repr

/-- The `changes` hash (path → folded change), as an association list. -/
def ChangedPaths : Type := List (String × PathChange)

/-- `apr_hash_get`. -/
def hash_get (m : ChangedPaths) (p : String) : Option PathChange :=
  (List.find? (fun e => e.1 == p) m).map Prod.snd

/-- `apr_hash_set` with a non-NULL value: replace any binding of `p`. -/
def hash_put (m : ChangedPaths) (p : String) (c : PathChange) :
    ChangedPaths :=
  (p, c) :: List.filter (fun e => e.1 != p) m

/-- `apr_hash_set` with a NULL value: remove the binding of `p`. -/
def hash_del (m : ChangedPaths) (p : String) : ChangedPaths :=
  List.filter (fun e => e.1 != p) m

/-- Embeds `fold_change` (fs_fs.c:1552-1729): merge one internal change
record into the hash of folded public changes.  The copyfrom cache updates
(which shadow the folded entries) are not modelled.  The four sanity
checks and the merge switch follow the source line by line. -/
def fold_change (changes : ChangedPaths) (change : Change) :
    Except FsErr ChangedPaths :=
  match hash_get changes change.path with
  | some old_change =>
      -- Sanity check: only allow a NULL node revision ID in the reset case.
      if change.noderev_id = none ∧ change.kind ≠ ChangeKind.reset then
        Except.error FsErr.corrupt
      -- Sanity check: same node-revision ID as the last change, except
      -- where the last change was a deletion.
      else if change.noderev_id ≠ none ∧
          old_change.node_rev_id ≠ change.noderev_id ∧
          old_change.change_kind ≠ ChangeKind.delete then
        Except.error FsErr.corrupt
      -- Sanity check: an add, replacement, or reset must be the first
      -- thing to follow a deletion.
      else if old_change.change_kind = ChangeKind.delete ∧
          ¬ (change.kind = ChangeKind.replace ∨
             change.kind = ChangeKind.reset ∨
             change.kind = ChangeKind.add) then
        Except.error FsErr.corrupt
      -- Sanity check: an add can only follow a delete or reset.
      else if change.kind = ChangeKind.add ∧
          old_change.change_kind ≠ ChangeKind.delete ∧
          old_change.change_kind ≠ ChangeKind.reset then
        Except.error FsErr.corrupt
      else
        match change.kind with
        | ChangeKind.reset =>
            Except.ok (hash_del changes change.path)
        | ChangeKind.delete =>
            if old_change.change_kind = ChangeKind.add then
              Except.ok (hash_del changes change.path)
            else
              Except.ok (hash_put changes change.path
                { old_change with
                    change_kind := ChangeKind.delete
                    text_mod := change.text_mod
                    prop_mod := change.prop_mod
                    copyfrom_rev := none
                    copyfrom_path := none
                    node_kind := change.node_kind })
        | ChangeKind.add | ChangeKind.replace =>
            Except.ok (hash_put changes change.path
              { old_change with
                  change_kind := ChangeKind.replace
                  node_rev_id := change.noderev_id
                  text_mod := change.text_mod
                  prop_mod := change.prop_mod
                  copyfrom_rev := change.copyfrom_rev
                  copyfrom_path :=
                    if change.copyfrom_rev = none then none
                    else change.copyfrom_path
                  node_kind := change.node_kind })
        | ChangeKind.modify =>
            Except.ok (hash_put changes change.path
              { old_change with
                  text_mod := old_change.text_mod || change.text_mod
                  prop_mod := old_change.prop_mod || change.prop_mod
                  node_kind := change.node_kind })
  | none =>
      Except.ok (hash_put changes change.path
        { node_rev_id := change.noderev_id
          change_kind := change.kind
          text_mod := change.text_mod
          prop_mod := change.prop_mod
          node_kind := change.node_kind
          copyfrom_known := true
          copyfrom_rev := change.copyfrom_rev
          copyfrom_path :=
            if change.copyfrom_rev = none then none
            else change.copyfrom_path })

/-- Modelled from the spec: `svn_dirent_is_child` lives in
`libsvn_subr/dirent_uri.c`, which is not part of this source tree.  Per
§4.8 of the spec, a child of PATH is a path starting with PATH + "/". -/
def svn_dirent_is_child (parent child : String) : Bool :=
  List.isPrefixOf (parent.data ++ ['/']) child.data

/-- The minimal key length of a potential child path, computed by
`process_changes` (fs_fs.c:1777-1782) before calling
`svn_dirent_is_child`: a child needs the separator plus at least one name
character, and unnormalized parents may end in a path separator. -/
def min_child_len (path : String) : Nat :=
  if path.length = 0 then 1
  else if path.data.getLast? = some '/' then path.length + 1
  else path.length + 2

/-- One iteration of the `process_changes` loop (fs_fs.c:1752-1809): fold
the change, then, for a delete or replace that is not prefolded, blow away
every folded entry on a child path. -/
def process_one (prefolded : Bool) (changes : ChangedPaths)
    (change : Change) : Except FsErr ChangedPaths :=
  match fold_change changes change with
  | Except.error e => Except.error e
  | Except.ok m =>
      if (change.kind = ChangeKind.delete ∨
          change.kind = ChangeKind.replace) ∧ prefolded = false then
        Except.ok (m.filter (fun e =>
          !(decide (min_child_len change.path ≤ e.1.length) &&
            svn_dirent_is_child change.path e.1)))
      else
        Except.ok m

/-- Embeds `process_changes` (fs_fs.c:1739-1815): fold a sequence of
changed-path records into `init` in order. -/
def process_changes (init : ChangedPaths) (changes_list : List Change)
    (prefolded : Bool) : Except FsErr ChangedPaths :=
  changes_list.foldlM (process_one prefolded) init

/-- Looking up a key in a hash it was just deleted from yields nothing. -/
theorem hash_get_hash_del (m : ChangedPaths) (p : String) :
    hash_get (hash_del m p) p = none := by
  unfold hash_get hash_del
  rw [List.find?_eq_none.mpr]
  · rfl
  · intro x hx
    rw [List.mem_filter] at hx
    simpa using hx.2

/-- C10: folding a change into an already-folded entry for the same path
fails with the corrupt error when the new change has no node-revision ID
and its kind is not reset, or when it carries a node-revision ID different
from the folded entry's while the folded entry's kind is not delete. -/
theorem fold_change_sanity_checks (m : ChangedPaths) (c : Change)
    (old_change : PathChange)
    (hold : hash_get m c.path = some old_change) :
    (c.noderev_id = none → c.kind ≠ ChangeKind.reset →
      fold_change m c = Except.error FsErr.corrupt) ∧
    (c.noderev_id ≠ none → old_change.node_rev_id ≠ c.noderev_id →
      old_change.change_kind ≠ ChangeKind.delete →
      fold_change m c = Except.error FsErr.corrupt) := by
  constructor
  · intro h1 h2
    simp [fold_change, hold, h1, h2]
  · intro h1 h2 h3
    simp [fold_change, hold, h1, h2, h3]

/-- Witness for C10: a delete record with no node-revision ID folded onto
an existing modify entry is corrupt; so is a modify whose ID differs from
the existing modify entry's ID. -/
theorem fold_change_sanity_checks_witness :
    fold_change
      [("/p", (⟨some 1, ChangeKind.modify, false, false, NodeKind.file,
               true, none, none⟩ : PathChange))]
      (⟨"/p", none, ChangeKind.delete, false, false, NodeKind.file,
        none, none⟩ : Change) = Except.error FsErr.corrupt ∧
    fold_change
      [("/p", (⟨some 1, ChangeKind.modify, false, false, NodeKind.file,
               true, none, none⟩ : PathChange))]
      (⟨"/p", some 2, ChangeKind.modify, false, false, NodeKind.file,
        none, none⟩ : Change) = Except.error FsErr.corrupt :=
  ⟨(fold_change_sanity_checks
      [("/p", (⟨some 1, ChangeKind.modify, false, false, NodeKind.file,
               true, none, none⟩ : PathChange))]
      (⟨"/p", none, ChangeKind.delete, false, false, NodeKind.file,
        none, none⟩ : Change)
      (⟨some 1, ChangeKind.modify, false, false, NodeKind.file,
        true, none, none⟩ : PathChange) (by decide)).1 rfl (by decide),
   (fold_change_sanity_checks
      [("/p", (⟨some 1, ChangeKind.modify, false, false, NodeKind.file,
               true, none, none⟩ : PathChange))]
      (⟨"/p", some 2, ChangeKind.modify, false, false, NodeKind.file,
        none, none⟩ : Change)
      (⟨some 1, ChangeKind.modify, false, false, NodeKind.file,
        true, none, none⟩ : PathChange) (by decide)).2 (by decide)
     (by decide) (by decide)⟩

/-- Counterexample for C3 as stated: a delete folded onto an existing
delete entry (a change kind other than add) does not turn the entry into a
delete; it is rejected with the corrupt error ("non-add change on deleted
path"). -/
theorem fold_change_delete_after_delete_corrupt :
    hash_get [("/p", (⟨some 1, ChangeKind.delete, false, false,
        NodeKind.file, true, none, none⟩ : PathChange))] "/p"
      = some (⟨some 1, ChangeKind.delete, false, false, NodeKind.file,
          true, none, none⟩ : PathChange) ∧
    fold_change
      [("/p", (⟨some 1, ChangeKind.delete, false, false, NodeKind.file,
          true, none, none⟩ : PathChange))]
      (⟨"/p", some 1, ChangeKind.delete, true, false, NodeKind.file,
        none, none⟩ : Change) = Except.error FsErr.corrupt :=
  ⟨rfl, rfl⟩

/-- C3 (amended): folding into an existing entry for the same path, given
the sanity checks pass (the new change carries a node-revision ID, equal
to the folded entry's unless that entry is a delete): a delete after an
add removes the path entirely; a delete after any change kind other than
add or delete turns the entry into a delete with cleared copyfrom (a
delete after a delete is instead rejected as corrupt); an add after a
delete or reset turns the entry into a replace; a modify ors its text-mod
and prop-mod flags into the entry. -/
theorem fold_change_merge_rules (m : ChangedPaths) (c : Change)
    (old_change : PathChange)
    (hold : hash_get m c.path = some old_change)
    (hid : c.noderev_id ≠ none) :
    (old_change.node_rev_id = c.noderev_id → c.kind = ChangeKind.delete →
      old_change.change_kind = ChangeKind.add →
      fold_change m c = Except.ok (hash_del m c.path) ∧
      hash_get (hash_del m c.path) c.path = none) ∧
    (old_change.node_rev_id = c.noderev_id → c.kind = ChangeKind.delete →
      old_change.change_kind ≠ ChangeKind.add →
      old_change.change_kind ≠ ChangeKind.delete →
      fold_change m c = Except.ok (hash_put m c.path
        { old_change with
            change_kind := ChangeKind.delete
            text_mod := c.text_mod
            prop_mod := c.prop_mod
            copyfrom_rev := none
            copyfrom_path := none
            node_kind := c.node_kind })) ∧
    (c.kind = ChangeKind.delete →
      old_change.change_kind = ChangeKind.delete →
      fold_change m c = Except.error FsErr.corrupt) ∧
    (c.kind = ChangeKind.add →
      (old_change.change_kind = ChangeKind.delete ∨
        (old_change.change_kind = ChangeKind.reset ∧
         old_change.node_rev_id = c.noderev_id)) →
      fold_change m c = Except.ok (hash_put m c.path
        { old_change with
            change_kind := ChangeKind.replace
            node_rev_id := c.noderev_id
            text_mod := c.text_mod
            prop_mod := c.prop_mod
            copyfrom_rev := c.copyfrom_rev
            copyfrom_path :=
              if c.copyfrom_rev = none then none else c.copyfrom_path
            node_kind := c.node_kind })) ∧
    (old_change.node_rev_id = c.noderev_id → c.kind = ChangeKind.modify →
      old_change.change_kind ≠ ChangeKind.delete →
      fold_change m c = Except.ok (hash_put m c.path
        { old_change with
            text_mod := old_change.text_mod || c.text_mod
            prop_mod := old_change.prop_mod || c.prop_mod
            node_kind := c.node_kind })) := by
  refine ⟨?_, ?_, ?_, ?_, ?_⟩
  · intro heq hk ha
    refine ⟨by simp [fold_change, hold, hid, heq, hk, ha],
      hash_get_hash_del m c.path⟩
  · intro heq hk hna hnd
    simp [fold_change, hold, hid, heq, hk, hna, hnd]
  · intro hk hd
    simp [fold_change, hold, hid, hk, hd]
  · intro hk hor
    rcases hor with hd | ⟨hres, heq⟩
    · simp [fold_change, hold, hid, hk, hd]
    · simp [fold_change, hold, hid, hk, hres, heq]
  · intro heq hk hnd
    simp [fold_change, hold, hid, heq, hk, hnd]

/-- Witness for C3 (amended): deleting a path added in the same
transaction removes it from the folded set, and a modify onto a modify
ors the flags. -/
theorem fold_change_merge_rules_witness :
    (fold_change
      [("/p", (⟨some 1, ChangeKind.add, true, false, NodeKind.file,
          true, none, none⟩ : PathChange))]
      (⟨"/p", some 1, ChangeKind.delete, false, false, NodeKind.file,
        none, none⟩ : Change)
      = Except.ok (hash_del
          [("/p", (⟨some 1, ChangeKind.add, true, false, NodeKind.file,
              true, none, none⟩ : PathChange))] "/p") ∧
     hash_get (hash_del
        [("/p", (⟨some 1, ChangeKind.add, true, false, NodeKind.file,
            true, none, none⟩ : PathChange))] "/p") "/p" = none) :=
  (fold_change_merge_rules
    [("/p", (⟨some 1, ChangeKind.add, true, false, NodeKind.file,
        true, none, none⟩ : PathChange))]
    (⟨"/p", some 1, ChangeKind.delete, false, false, NodeKind.file,
      none, none⟩ : Change)
    (⟨some 1, ChangeKind.add, true, false, NodeKind.file,
      true, none, none⟩ : PathChange) (by decide) (by decide)).1
    rfl rfl rfl

/-- C4: when a delete or replace record for path P is folded in the
not-prefolded case, any change recorded for a strict child of P (a path
of the form P ++ "/" ++ name, hence at least two characters longer than P
when P is slash-free-tailed) is absent from the folded set afterwards; in
particular, adding /d, adding /d/f, then deleting /d in one transaction
folds to an empty changed-paths list (neither /d nor /d/f is committed). -/
theorem process_changes_removes_children :
    (∀ (m m' : ChangedPaths) (c : Change) (q : String),
      (c.kind = ChangeKind.delete ∨ c.kind = ChangeKind.replace) →
      min_child_len c.path ≤ q.length →
      svn_dirent_is_child c.path q = true →
      process_one false m c = Except.ok m' →
      hash_get m' q = none) ∧
    process_changes []
      [(⟨"/d", some 1, ChangeKind.add, false, false, NodeKind.dir,
          none, none⟩ : Change),
       (⟨"/d/f", some 2, ChangeKind.add, true, false, NodeKind.file,
          none, none⟩ : Change),
       (⟨"/d", some 1, ChangeKind.delete, false, false, NodeKind.dir,
          none, none⟩ : Change)] false = Except.ok [] := by
  constructor
  · intro m m' c q hk hlen hq hrun
    unfold process_one at hrun
    cases hfold : fold_change m c with
    | error e =>
        simp only [hfold] at hrun
        exact absurd hrun (by simp)
    | ok m0 =>
        simp only [hfold] at hrun
        rw [if_pos ⟨hk, trivial⟩] at hrun
        injection hrun with hm'
        subst hm'
        unfold hash_get
        rw [List.find?_eq_none.mpr]
        · rfl
        · intro x hx
          rw [List.mem_filter] at hx
          intro hbeq
          have hxq : x.1 = q := by simpa using hbeq
          have hfx := hx.2
          rw [hxq] at hfx
          simp [hlen, hq] at hfx
  · rfl

/-- Witness for C4: the delete step of the scenario applied to the folded
state of the first two adds removes the recorded change on /d/f. -/
theorem process_changes_removes_children_witness :
    hash_get [] "/d/f" = none :=
  process_changes_removes_children.1
    [("/d/f", (⟨some 2, ChangeKind.replace, true, false, NodeKind.file,
        true, none, none⟩ : PathChange)),
     ("/d", (⟨some 1, ChangeKind.add, false, false, NodeKind.dir,
        true, none, none⟩ : PathChange))]
    [] (⟨"/d", some 1, ChangeKind.delete, false, false, NodeKind.dir,
        none, none⟩ : Change) "/d/f"
    (Or.inl rfl) (by decide) (by decide) rfl

/-- A representation pointer (`representation_t`), reduced to the fields
`choose_delta_base` inspects: the revision it lives in and its offset. -/
structure RepInfo where
  revision : Int
  offset : Nat
deriving DecidableEq, Repr

/-- A node-revision (`node_revision_t`), reduced to what
`choose_delta_base` reads: the revision of its id
(`svn_fs_fs__id_rev(node->id)`), its predecessor count and its two rep
pointers. -/
structure NodeRev where
  id_rev : Int
  predecessor_count : Nat
  data_rep : Option RepInfo
  prop_rep : Option RepInfo
deriving DecidableEq, Repr

/-- Embeds `choose_delta_base` (fs_fs.c:2545-2648).  `preds i` is the
`i`-th predecessor of `noderev` along its line, as fetched by
`svn_fs_fs__get_node_revision`; `chain_length` abstracts
`svn_fs_fs__rep_chain_length`.  `max_linear` and `max_walk` are
`ffd->max_linear_deltification` and `ffd->max_deltification_walk`. -/
def choose_delta_base (max_linear max_walk : Nat) (noderev : NodeRev)
    (preds : Nat → NodeRev) (chain_length : RepInfo → Nat)
    (props : Bool) : Option RepInfo :=
  -- If we have no predecessors, then use the empty stream as a base.
  if noderev.predecessor_count = 0 then none
  else
    -- Flip the rightmost one bit of the predecessor count.
    let c := noderev.predecessor_count
    let count := c &&& (c - 1)
    -- Close to HEAD, create a linear history to minimize delta size.
    let walk := c - count
    let count2 := if walk < max_linear then c - 1 else count
    -- Bound the cost of finding the delta base on very deep histories.
    if walk > max_walk then none
    else
      -- Walk back count - predecessor_count predecessors.
      let steps := c - count2
      let maybe_shared := (List.range steps).any (fun j =>
        let nd := preds (j + 1)
        match (if props then nd.prop_rep else nd.data_rep) with
        | some r => decide (r.revision < nd.id_rev)
        | none => false)
      match (if props then (preds steps).prop_rep
             else (preds steps).data_rep) with
      | none => none
      | some r =>
          -- A shared rep's parent chain may differ from the node-rev
          -- parent chain: bound the deltification chain length.
          if maybe_shared ∧ 2 * max_linear + 2 ≤ chain_length r then none
          else some r

/-- The delta-base outcome once the walk distance `steps` is fixed: the
base is the `steps`-th predecessor's rep, abandoned when a possibly-shared
rep was seen along the walk and the chain is too long. -/
def delta_base_result (preds : Nat → NodeRev) (chain_length : RepInfo → Nat)
    (props : Bool) (max_linear steps : Nat) : Option RepInfo :=
  let maybe_shared := (List.range steps).any (fun j =>
    let nd := preds (j + 1)
    match (if props then nd.prop_rep else nd.data_rep) with
    | some r => decide (r.revision < nd.id_rev)
    | none => false)
  match (if props then (preds steps).prop_rep
         else (preds steps).data_rep) with
  | none => none
  | some r =>
      if maybe_shared ∧ 2 * max_linear + 2 ≤ chain_length r then none
      else some r

/-- Written from the claim's words, for comparison with
`choose_delta_base`: identical except that the delta is abandoned only
when the chain length grows strictly beyond
`2 * max-linear-deltification + 2`. -/
def choose_delta_base_claimed (max_linear max_walk : Nat)
    (noderev : NodeRev) (preds : Nat → NodeRev)
    (chain_length : RepInfo → Nat) (props : Bool) : Option RepInfo :=
  if noderev.predecessor_count = 0 then none
  else
    let c := noderev.predecessor_count
    let count := c &&& (c - 1)
    let walk := c - count
    let count2 := if walk < max_linear then c - 1 else count
    if walk > max_walk then none
    else
      let steps := c - count2
      let maybe_shared := (List.range steps).any (fun j =>
        let nd := preds (j + 1)
        match (if props then nd.prop_rep else nd.data_rep) with
        | some r => decide (r.revision < nd.id_rev)
        | none => false)
      match (if props then (preds steps).prop_rep
             else (preds steps).data_rep) with
      | none => none
      | some r =>
          if maybe_shared ∧ 2 * max_linear + 2 < chain_length r then none
          else some r

/-- Counterexample for C5 as stated: with max-linear-deltification 1, a
walk that encounters a possibly-shared rep and whose chosen base has a
delta-chain length of exactly 2 * 1 + 2 = 4 — not strictly beyond it — is
abandoned by the code (`chain_length >= 2 * max_linear_deltification + 2`),
while the claim's strict reading would keep the base. -/
theorem choose_delta_base_chain_bound_counterexample :
    choose_delta_base 1 1023 (⟨10, 2, none, none⟩ : NodeRev)
      (fun i => if i = 1 then (⟨5, 1, some ⟨3, 0⟩, none⟩ : NodeRev)
                else (⟨3, 0, some ⟨2, 7⟩, none⟩ : NodeRev))
      (fun _ => 4) false = none ∧
    choose_delta_base_claimed 1 1023 (⟨10, 2, none, none⟩ : NodeRev)
      (fun i => if i = 1 then (⟨5, 1, some ⟨3, 0⟩, none⟩ : NodeRev)
                else (⟨3, 0, some ⟨2, 7⟩, none⟩ : NodeRev))
      (fun _ => 4) false = some ⟨2, 7⟩ :=
  ⟨rfl, rfl⟩

/-- C5 (amended): for a node-revision with predecessor count `c > 0`, the
skip-delta target is `c &&& (c - 1)`; when the distance
`c - (c &&& (c - 1))` is less than max-linear-deltification the base
becomes predecessor `c - 1` (one step back); when that distance exceeds
max-deltification-walk no base is used; and the chosen base is abandoned
when a possibly-shared rep was met along the walk and the base's
delta-chain length reaches `2 * max-linear-deltification + 2` or more. -/
theorem choose_delta_base_policy (mL mW : Nat) (nd : NodeRev)
    (preds : Nat → NodeRev) (cl : RepInfo → Nat) (props : Bool)
    (c : Nat) (hc : nd.predecessor_count = c) (hpos : 0 < c) :
    (c - (c &&& (c - 1)) > mW →
      choose_delta_base mL mW nd preds cl props = none) ∧
    (¬ c - (c &&& (c - 1)) > mW → c - (c &&& (c - 1)) < mL →
      choose_delta_base mL mW nd preds cl props
        = delta_base_result preds cl props mL 1) ∧
    (¬ c - (c &&& (c - 1)) > mW → ¬ c - (c &&& (c - 1)) < mL →
      choose_delta_base mL mW nd preds cl props
        = delta_base_result preds cl props mL (c - (c &&& (c - 1)))) := by
  subst hc
  have h0 : ¬ nd.predecessor_count = 0 := Nat.pos_iff_ne_zero.mp hpos
  refine ⟨?_, ?_, ?_⟩
  · intro hw
    simp only [choose_delta_base, if_neg h0]
    rw [if_pos hw]
  · intro hw hlin
    have h1 : nd.predecessor_count - (nd.predecessor_count - 1) = 1 := by
      omega
    simp only [choose_delta_base, delta_base_result, if_neg h0,
      if_pos hlin, if_neg hw, h1]
  · intro hw hlin
    simp only [choose_delta_base, delta_base_result, if_neg h0,
      if_neg hlin, if_neg hw]

/-- Witness for C5 (amended): with the default limits (16, 1023) and
predecessor count 5, the walk distance is 1 < 16, so the base is chosen
one step back (the linear tail). -/
theorem choose_delta_base_policy_witness :
    choose_delta_base 16 1023 (⟨9, 5, none, none⟩ : NodeRev)
      (fun _ => (⟨4, 4, some ⟨4, 11⟩, none⟩ : NodeRev)) (fun _ => 1) false
      = delta_base_result (fun _ => (⟨4, 4, some ⟨4, 11⟩, none⟩ : NodeRev))
          (fun _ => 1) false 16 1 :=
  (choose_delta_base_policy 16 1023 (⟨9, 5, none, none⟩ : NodeRev)
    (fun _ => (⟨4, 4, some ⟨4, 11⟩, none⟩ : NodeRev)) (fun _ => 1) false
    5 rfl (by decide)).2.1 (by decide) (by decide)

/-- A representation as handled by the rep-sharing lookup
(`representation_t`), reduced to an identity plus the fields
`get_shared_rep` rewrites on the found rep. -/
structure Rep where
  id : Nat
  md5 : Nat
  uniquifier : Nat
deriving DecidableEq, Repr

/-- Whether an error code lies in `SVN_ERR_MALFUNC_CATEGORY_START`'s
category. -/
def in_malfunc_category : FsErr → Bool
  | FsErr.malfunction _ => true
  | _ => false

/-- Embeds `get_shared_rep` (fs_fs.c:2772-2860).  `hash_hit` is the
lookup of `rep`'s SHA-1 in the in-transaction `reps_hash` (`none` when
the hash is absent or misses); `db_result` abstracts
`svn_fs_fs__get_rep_reference`; `check_rep` abstracts the
`svn_fs_fs__check_rep` sanity check on the index result; `sidecar` is the
parse of the per-transaction file `<txn-scratch>/<sha1-hex>` (`none` when
missing); `txn_id` is `rep->txn_id`.  Returns the found rep (with `md5`
and `uniquifier` refreshed from `rep`) and whether the warning callback
was invoked. -/
def get_shared_rep (allowed : Bool) (hash_hit : Option Rep)
    (db_result : Except FsErr (Option Rep))
    (check_rep : Rep → Except FsErr Unit) (txn_id : Option Nat)
    (sidecar : Option Rep) (rep : Rep) :
    Except FsErr (Option Rep × Bool) :=
  -- Return NULL if rep sharing has been disabled.
  if ¬ allowed then Except.ok (none, false)
  else
    match (match hash_hit with
      | some o => Except.ok ((some o : Option Rep), false)
      | none =>
        -- If we have not found anything yet, consult our DB.
        match db_result with
        | Except.ok (some r) =>
            (match check_rep r with
             | Except.ok _ => Except.ok ((some r : Option Rep), false)
             | Except.error e => Except.error e)
        | Except.ok none => Except.ok ((none : Option Rep), false)
        | Except.error e =>
            if e = FsErr.corrupt ∨ in_malfunc_category e = true then
              -- Fatal error; do not mask it.
              Except.error e
            else
              -- Warn and continue without rep-sharing from the index.
              Except.ok ((none : Option Rep), true)) with
    | Except.error e => Except.error e
    | Except.ok (old2, warned) =>
        -- Look for intra-revision matches in the txn's sha1 file.
        let old3 := if old2 = none ∧ txn_id ≠ none then sidecar else old2
        match old3 with
        | some o =>
            Except.ok
              (some { o with md5 := rep.md5, uniquifier := rep.uniquifier },
               warned)
        | none => Except.ok (none, warned)

/-- Written from the claim's words, for comparison with
`get_shared_rep`: consults the per-transaction sidecar file as the second
tier and the index database only as the third. -/
def get_shared_rep_claimed (allowed : Bool) (hash_hit : Option Rep)
    (db_result : Except FsErr (Option Rep))
    (check_rep : Rep → Except FsErr Unit) (txn_id : Option Nat)
    (sidecar : Option Rep) (rep : Rep) :
    Except FsErr (Option Rep × Bool) :=
  if ¬ allowed then Except.ok (none, false)
  else
    let old2 := if hash_hit = none ∧ txn_id ≠ none then sidecar
                else hash_hit
    match (match old2 with
      | some o => Except.ok ((some o : Option Rep), false)
      | none =>
        match db_result with
        | Except.ok (some r) =>
            (match check_rep r with
             | Except.ok _ => Except.ok ((some r : Option Rep), false)
             | Except.error e => Except.error e)
        | Except.ok none => Except.ok ((none : Option Rep), false)
        | Except.error e =>
            if e = FsErr.corrupt ∨ in_malfunc_category e = true then
              Except.error e
            else
              Except.ok ((none : Option Rep), true)) with
    | Except.error e => Except.error e
    | Except.ok (old3, warned) =>
        match old3 with
        | some o =>
            Except.ok
              (some { o with md5 := rep.md5, uniquifier := rep.uniquifier },
               warned)
        | none => Except.ok (none, warned)

/-- Counterexample for C6 as stated: when the in-transaction hash misses
but both the index database and the per-transaction sidecar file hold a
rep for the SHA-1, the code returns the database's rep (id 1), not the
sidecar's (id 2) as the claim's tier order would have it. -/
theorem get_shared_rep_tier_order_counterexample :
    get_shared_rep true none (Except.ok (some ⟨1, 11, 21⟩))
      (fun _ => Except.ok ()) (some 1) (some ⟨2, 12, 22⟩) ⟨0, 99, 77⟩
      = Except.ok (some ⟨1, 99, 77⟩, false) ∧
    get_shared_rep_claimed true none (Except.ok (some ⟨1, 11, 21⟩))
      (fun _ => Except.ok ()) (some 1) (some ⟨2, 12, 22⟩) ⟨0, 99, 77⟩
      = Except.ok (some ⟨2, 99, 77⟩, false) ∧
    (some (⟨1, 99, 77⟩ : Rep) ≠ some (⟨2, 99, 77⟩ : Rep)) :=
  ⟨rfl, rfl, by decide⟩

/-- C6 (amended): with rep-sharing enabled, the lookup consults the three
tiers in this order: first the in-transaction hash (a hit there wins
regardless of the other tiers), second the index database, whose hit is
sanity-checked by `svn_fs_fs__check_rep` (a check failure propagates, a
pass wins over the sidecar), and third the per-transaction sidecar file
`<txn-scratch>/<sha1-hex>`. -/
theorem get_shared_rep_tier_order (hash_hit : Option Rep)
    (db : Except FsErr (Option Rep)) (chk : Rep → Except FsErr Unit)
    (txn_id : Option Nat) (sidecar : Option Rep) (rep : Rep) :
    (get_shared_rep false hash_hit db chk txn_id sidecar rep
      = Except.ok (none, false)) ∧
    (∀ o, hash_hit = some o →
      get_shared_rep true hash_hit db chk txn_id sidecar rep
        = Except.ok
            (some { o with md5 := rep.md5, uniquifier := rep.uniquifier },
             false)) ∧
    (∀ r, hash_hit = none → db = Except.ok (some r) →
      chk r = Except.ok () →
      get_shared_rep true hash_hit db chk txn_id sidecar rep
        = Except.ok
            (some { r with md5 := rep.md5, uniquifier := rep.uniquifier },
             false)) ∧
    (∀ r e, hash_hit = none → db = Except.ok (some r) →
      chk r = Except.error e →
      get_shared_rep true hash_hit db chk txn_id sidecar rep
        = Except.error e) ∧
    (hash_hit = none → db = Except.ok none → txn_id ≠ none →
      get_shared_rep true hash_hit db chk txn_id sidecar rep
        = match sidecar with
          | some o =>
              Except.ok
                (some { o with md5 := rep.md5,
                               uniquifier := rep.uniquifier }, false)
          | none => Except.ok (none, false)) := by
  refine ⟨by simp [get_shared_rep], ?_, ?_, ?_, ?_⟩
  · intro o ho
    simp [get_shared_rep, ho]
  · intro r h1 h2 h3
    simp [get_shared_rep, h1, h2, h3]
  · intro r e h1 h2 h3
    simp [get_shared_rep, h1, h2, h3]
  · intro h1 h2 h3
    cases sidecar with
    | some o => simp [get_shared_rep, h1, h2, h3]
    | none => simp [get_shared_rep, h1, h2, h3]

/-- Witness for C6 (amended): a hash hit wins even when the database
lookup would report a corrupt error. -/
theorem get_shared_rep_tier_order_witness :
    get_shared_rep true (some ⟨3, 1, 2⟩) (Except.error FsErr.corrupt)
      (fun _ => Except.ok ()) (some 1) (some ⟨4, 5, 6⟩) ⟨0, 99, 77⟩
      = Except.ok (some ⟨3, 99, 77⟩, false) :=
  (get_shared_rep_tier_order (some ⟨3, 1, 2⟩) (Except.error FsErr.corrupt)
    (fun _ => Except.ok ()) (some 1) (some ⟨4, 5, 6⟩) ⟨0, 99, 77⟩).2.1
    ⟨3, 1, 2⟩ rfl

/-- Counterexample for C7 as stated: after a non-fatal index error, the
lookup does not proceed with every sharing source disabled — the
per-transaction sidecar tier still runs and supplies a shared rep. -/
theorem get_shared_rep_warn_still_shares :
    get_shared_rep true none (Except.error (FsErr.other 3))
      (fun _ => Except.ok ()) (some 1) (some ⟨2, 12, 22⟩) ⟨0, 99, 77⟩
      = Except.ok (some ⟨2, 99, 77⟩, true) ∧
    (some (⟨2, 99, 77⟩ : Rep) ≠ (none : Option Rep)) :=
  ⟨rfl, by decide⟩

/-- C7 (amended): during the rep-sharing lookup, an index-database error
that is the corrupt error or lies in the malfunction category is
propagated unchanged and aborts the write; every other index error is
passed to the warning callback and cleared, the index yields no rep, and
the lookup proceeds to the per-transaction sidecar tier, which may still
supply a shared rep. -/
theorem get_shared_rep_db_error_policy (hash_hit : Option Rep)
    (db : Except FsErr (Option Rep)) (chk : Rep → Except FsErr Unit)
    (txn_id : Option Nat) (sidecar : Option Rep) (rep : Rep) :
    (∀ e, hash_hit = none → db = Except.error e →
      (e = FsErr.corrupt ∨ in_malfunc_category e = true) →
      get_shared_rep true hash_hit db chk txn_id sidecar rep
        = Except.error e) ∧
    (∀ e, hash_hit = none → db = Except.error e →
      ¬ (e = FsErr.corrupt ∨ in_malfunc_category e = true) →
      get_shared_rep true hash_hit db chk txn_id sidecar rep
        = match (if txn_id ≠ none then sidecar else none) with
          | some o =>
              Except.ok
                (some { o with md5 := rep.md5,
                               uniquifier := rep.uniquifier }, true)
          | none => Except.ok (none, true)) := by
  constructor
  · intro e h1 h2 h3
    simp [get_shared_rep, h1, h2, h3]
  · intro e h1 h2 h3
    by_cases ht : txn_id = none
    · simp [get_shared_rep, h1, h2, h3, ht]
    · cases sidecar with
      | some o => simp [get_shared_rep, h1, h2, h3, ht]
      | none => simp [get_shared_rep, h1, h2, h3, ht]

/-- Witness for C7 (amended): a malfunction-category index error is
propagated unchanged; a plain index error with no sidecar match yields no
rep but sets the warned flag. -/
theorem get_shared_rep_db_error_policy_witness :
    get_shared_rep true none (Except.error (FsErr.malfunction 9))
      (fun _ => Except.ok ()) (some 1) none ⟨0, 99, 77⟩
      = Except.error (FsErr.malfunction 9) ∧
    get_shared_rep true none (Except.error (FsErr.other 3))
      (fun _ => Except.ok ()) (some 1) none ⟨0, 99, 77⟩
      = Except.ok (none, true) :=
  ⟨(get_shared_rep_db_error_policy none (Except.error (FsErr.malfunction 9))
      (fun _ => Except.ok ()) (some 1) none ⟨0, 99, 77⟩).1
      (FsErr.malfunction 9) rfl rfl (Or.inr rfl),
   (get_shared_rep_db_error_policy none (Except.error (FsErr.other 3))
      (fun _ => Except.ok ()) (some 1) none ⟨0, 99, 77⟩).2
      (FsErr.other 3) rfl rfl (by decide)⟩

/-- The fields of an open FSFS filesystem consulted by the incremental
hotcopy preconditions: format number, uuid, shard size
(`max_files_per_dir`), youngest revision (`current`), and the effective
min-unpacked-rev (0 for formats without packing, where the file does not
exist). -/
structure HotcopyFs where
  format : Nat
  uuid : String
  max_files_per_dir : Nat
  youngest : Nat
  min_unpacked_rev : Nat
deriving DecidableEq, Repr

/-- Embeds the checks an incremental hotcopy onto an existing destination
runs before any revision data is copied:
`hotcopy_incremental_check_preconditions` (fs_fs.c:5043-5075, called from
`svn_fs_fs__hotcopy`) followed by the youngest-revision and
min-unpacked-rev comparisons at the head of `hotcopy_body`
(fs_fs.c:5190-5234), all of which precede the shard/revision copy loops.
`min_packed_format` is `SVN_FS_FS__MIN_PACKED_FORMAT`; the
min-unpacked-rev comparison only exists for formats supporting packing. -/
def hotcopy_precheck (min_packed_format : Nat) (src dst : HotcopyFs) :
    Except FsErr Unit :=
  -- We only support incremental hotcopy between the same format.
  if src.format ≠ dst.format then Except.error FsErr.unsupportedFeature
  -- We don't want to copy over a different repository.
  else if src.uuid ≠ dst.uuid then Except.error FsErr.uuidMismatch
  -- Also require the same shard size.
  else if src.max_files_per_dir ≠ dst.max_files_per_dir then
    Except.error FsErr.unsupportedFeature
  -- Only sources with at least as many revisions as the destination.
  else if src.youngest < dst.youngest then
    Except.error FsErr.unsupportedFeature
  -- The destination must not be packed independently from the source.
  else if min_packed_format ≤ src.format ∧
      src.min_unpacked_rev < dst.min_unpacked_rev then
    Except.error FsErr.unsupportedFeature
  else Except.ok ()

/-- C8: an incremental hotcopy succeeds its prechecks (run before any
revision data is copied) exactly when format, uuid and shard size match
and the source is at least as young and at least as packed as the
destination; each violated condition produces the claimed error
(unsupported-feature, except uuid-mismatch for a uuid difference).  The
hypothesis records that a filesystem whose format predates packing has an
effective min-unpacked-rev of 0. -/
theorem hotcopy_precheck_conditions (mpf : Nat) (src dst : HotcopyFs)
    (hwf : mpf ≤ src.format ∨
      (src.min_unpacked_rev = 0 ∧ dst.min_unpacked_rev = 0)) :
    (hotcopy_precheck mpf src dst = Except.ok () ↔
      (src.format = dst.format ∧ src.uuid = dst.uuid ∧
       src.max_files_per_dir = dst.max_files_per_dir ∧
       dst.youngest ≤ src.youngest ∧
       dst.min_unpacked_rev ≤ src.min_unpacked_rev)) ∧
    (src.format ≠ dst.format →
      hotcopy_precheck mpf src dst
        = Except.error FsErr.unsupportedFeature) ∧
    (src.format = dst.format → src.uuid ≠ dst.uuid →
      hotcopy_precheck mpf src dst = Except.error FsErr.uuidMismatch) ∧
    (src.format = dst.format → src.uuid = dst.uuid →
      src.max_files_per_dir ≠ dst.max_files_per_dir →
      hotcopy_precheck mpf src dst
        = Except.error FsErr.unsupportedFeature) ∧
    (src.format = dst.format → src.uuid = dst.uuid →
      src.max_files_per_dir = dst.max_files_per_dir →
      src.youngest < dst.youngest →
      hotcopy_precheck mpf src dst
        = Except.error FsErr.unsupportedFeature) ∧
    (src.format = dst.format → src.uuid = dst.uuid →
      src.max_files_per_dir = dst.max_files_per_dir →
      dst.youngest ≤ src.youngest →
      src.min_unpacked_rev < dst.min_unpacked_rev →
      hotcopy_precheck mpf src dst
        = Except.error FsErr.unsupportedFeature) := by
  have c2 : src.format ≠ dst.format →
      hotcopy_precheck mpf src dst
        = Except.error FsErr.unsupportedFeature := by
    intro h1
    simp [hotcopy_precheck, h1]
  have c3 : src.format = dst.format → src.uuid ≠ dst.uuid →
      hotcopy_precheck mpf src dst = Except.error FsErr.uuidMismatch := by
    intro h1 h2
    simp [hotcopy_precheck, h1, h2]
  have c4 : src.format = dst.format → src.uuid = dst.uuid →
      src.max_files_per_dir ≠ dst.max_files_per_dir →
      hotcopy_precheck mpf src dst
        = Except.error FsErr.unsupportedFeature := by
    intro h1 h2 h3
    simp [hotcopy_precheck, h1, h2, h3]
  have c5 : src.format = dst.format → src.uuid = dst.uuid →
      src.max_files_per_dir = dst.max_files_per_dir →
      src.youngest < dst.youngest →
      hotcopy_precheck mpf src dst
        = Except.error FsErr.unsupportedFeature := by
    intro h1 h2 h3 h4
    simp [hotcopy_precheck, h1, h2, h3, h4]
  have c6 : src.format = dst.format → src.uuid = dst.uuid →
      src.max_files_per_dir = dst.max_files_per_dir →
      dst.youngest ≤ src.youngest →
      src.min_unpacked_rev < dst.min_unpacked_rev →
      hotcopy_precheck mpf src dst
        = Except.error FsErr.unsupportedFeature := by
    intro h1 h2 h3 h4 h5
    have hm : mpf ≤ dst.format := by
      rcases hwf with h | ⟨a, b⟩ <;> omega
    simp [hotcopy_precheck, h1, h2, h3, not_lt.mpr h4, hm, h5]
  refine ⟨?_, c2, c3, c4, c5, c6⟩
  constructor
  · intro hok
    by_cases h1 : src.format = dst.format
    · by_cases h2 : src.uuid = dst.uuid
      · by_cases h3 : src.max_files_per_dir = dst.max_files_per_dir
        · by_cases h4 : src.youngest < dst.youngest
          · rw [c5 h1 h2 h3 h4] at hok
            exact absurd hok (by simp)
          · by_cases h5 : src.min_unpacked_rev < dst.min_unpacked_rev
            · rw [c6 h1 h2 h3 (not_lt.mp h4) h5] at hok
              exact absurd hok (by simp)
            · exact ⟨h1, h2, h3, not_lt.mp h4, not_lt.mp h5⟩
        · rw [c4 h1 h2 h3] at hok
          exact absurd hok (by simp)
      · rw [c3 h1 h2] at hok
        exact absurd hok (by simp)
    · rw [c2 h1] at hok
      exact absurd hok (by simp)
  · intro ⟨e1, e2, e3, e4, e5⟩
    simp [hotcopy_precheck, e1, e2, e3, not_lt.mpr e4, not_lt.mpr e5]

/-- Witness for C8: matching filesystems pass the prechecks; a uuid
difference alone yields the uuid-mismatch error. -/
theorem hotcopy_precheck_conditions_witness :
    hotcopy_precheck 4 (⟨4, "u", 1000, 10, 5⟩ : HotcopyFs)
      (⟨4, "u", 1000, 8, 3⟩ : HotcopyFs) = Except.ok () ∧
    hotcopy_precheck 4 (⟨4, "a", 1000, 10, 5⟩ : HotcopyFs)
      (⟨4, "b", 1000, 8, 3⟩ : HotcopyFs)
      = Except.error FsErr.uuidMismatch :=
  ⟨(hotcopy_precheck_conditions 4 (⟨4, "u", 1000, 10, 5⟩ : HotcopyFs)
      (⟨4, "u", 1000, 8, 3⟩ : HotcopyFs) (Or.inl (by decide))).1.mpr
      (by decide),
   (hotcopy_precheck_conditions 4 (⟨4, "a", 1000, 10, 5⟩ : HotcopyFs)
      (⟨4, "b", 1000, 8, 3⟩ : HotcopyFs)
      (Or.inl (by decide))).2.2.1 rfl (by decide)⟩

/-- C1: if the transaction's base revision differs from `current` re-read
under the write lock, `commit_body` fails with the txn-out-of-date error and
returns the state unchanged (`current` intact, transaction not purged); any
successful commit returns exactly `current + 1` both as the new value of
`current` and as the revision number handed to the caller. -/
theorem commit_body_freshness_and_monotonicity (s : FsState) (txn : Txn)
    (locks_ok : Bool) (write_result : Option FsErr) :
    (txn.base_rev ≠ s.current →
      commit_body s txn locks_ok write_result
        = (s, Except.error FsErr.txnOutOfDate)) ∧
    (∀ s' r, commit_body s txn locks_ok write_result = (s', Except.ok r) →
      s'.current = s.current + 1 ∧ r = s.current + 1) ∧
    (∀ s' e, commit_body s txn locks_ok write_result
        = (s', Except.error e) → s' = s) := by
  refine ⟨?_, ?_, ?_⟩
  · intro h
    simp [commit_body, h]
  · intro s' r h
    by_cases hb : txn.base_rev = s.current
    · by_cases hl : locks_ok
      · cases write_result with
        | some e => simp [commit_body, hb, hl] at h
        | none =>
            simp [commit_body, hb, hl] at h
            obtain ⟨h1, h2⟩ := h
            exact ⟨by rw [← h1], h2.symm⟩
      · simp [commit_body, hb, hl] at h
    · simp [commit_body, hb] at h
  · intro s' e h
    by_cases hb : txn.base_rev = s.current
    · by_cases hl : locks_ok
      · cases write_result with
        | some e' =>
            simp [commit_body, hb, hl] at h
            exact h.1.symm
        | none => simp [commit_body, hb, hl] at h
      · simp [commit_body, hb, hl] at h
        exact h.1.symm
    · simp [commit_body, hb] at h
      exact h.1.symm

/-- Witness for C1: at `current = 5`, a transaction based on revision 4
fails out-of-date with the state intact, and a transaction based on
revision 5 commits to revision 6. -/
theorem commit_body_freshness_and_monotonicity_witness :
    commit_body ⟨5, [7]⟩ ⟨7, 4⟩ true none
      = (⟨5, [7]⟩, Except.error FsErr.txnOutOfDate) ∧
    ((6 : Int) = 5 + 1) :=
  ⟨(commit_body_freshness_and_monotonicity ⟨5, [7]⟩ ⟨7, 4⟩ true none).1
      (by decide),
   ((commit_body_freshness_and_monotonicity ⟨5, [7]⟩ ⟨7, 5⟩ true none).2.1
      ⟨6, []⟩ 6 rfl).2⟩

/-- Counterexample for C2 as stated: a new root node-revision whose
predecessor-count is -1 (unknown) differs from the HEAD root's count 5 by
-6 ≠ R - HEAD = 1, yet `validate_root_noderev` accepts it without error. -/
theorem validate_root_noderev_unknown_not_rejected :
    ((-1 : Int) - 5 ≠ (7 : Int) - 6) ∧
    validate_root_noderev (-1) 5 7 = Except.ok () :=
  ⟨by decide, rfl⟩

/-- C2 (amended): during commit of revision `rev > 0`, a new root
node-revision with a known predecessor-count (`≠ -1`) passes
`validate_root_noderev` exactly when its count is the HEAD root's count
plus one (`rev - head_revnum = 1`), and is otherwise rejected with the
corrupt error; hence every committed revision whose root records a known
predecessor-count has exactly one more than its predecessor revision's
root. -/
theorem validate_root_noderev_characterization (p h rev : Int)
    (hrev : 0 < rev) (hp : p ≠ -1) :
    (validate_root_noderev p h rev = Except.ok () ↔ p = h + 1) ∧
    (p ≠ h + 1 →
      validate_root_noderev p h rev = Except.error FsErr.corrupt) := by
  have hle : ¬ rev ≤ 0 := not_le.mpr hrev
  unfold validate_root_noderev
  rw [if_neg hle]
  by_cases hcond : p ≠ -1 ∧ p - h ≠ rev - (rev - 1)
  · rw [if_pos hcond]
    refine ⟨⟨fun hok => by simp at hok, fun he => (hcond.2 (by omega)).elim⟩,
      fun _ => rfl⟩
  · rw [if_neg hcond]
    push_neg at hcond
    have hph : p = h + 1 := by
      have := hcond hp
      omega
    exact ⟨⟨fun _ => hph, fun _ => rfl⟩, fun hne => (hne hph).elim⟩

/-- Witness for C2 (amended): committing revision 7 with root count 6 over
HEAD root count 5 is accepted; root count 9 over HEAD count 5 is corrupt. -/
theorem validate_root_noderev_characterization_witness :
    validate_root_noderev 6 5 7 = Except.ok () ∧
    validate_root_noderev 9 5 7 = Except.error FsErr.corrupt :=
  ⟨(validate_root_noderev_characterization 6 5 7 (by decide)
      (by decide)).1.mpr (by norm_num),
   (validate_root_noderev_characterization 9 5 7 (by decide)
      (by decide)).2 (by norm_num)⟩

/-- C9: `validate_root_noderev` performs no predecessor-count check when
the new root's count is -1 (unknown): such a root is accepted for any HEAD
predecessor count. -/
theorem validate_root_noderev_skips_unknown (h rev : Int) (hrev : 0 < rev) :
    validate_root_noderev (-1) h rev = Except.ok () := by
  simp [validate_root_noderev, not_le.mpr hrev]

/-- Witness for C9: committing revision 3 with an unknown root
predecessor-count over HEAD count 41 succeeds. -/
theorem validate_root_noderev_skips_unknown_witness :
    validate_root_noderev (-1) 41 3 = Except.ok () :=
  validate_root_noderev_skips_unknown 41 3 (by decide)

end FsFs
